import Mathlib

/-!
Verification of the order-flow and account-matching engine of the
tari_payment_server repository, against its natural-language specification.

The Rust source is shallowly embedded: pure fragments become Lean functions,
stateful database operations become explicit state passing over a Store value,
machine integers (i64) become Int, and fallible operations return Except.
Where the repository provides only the trait declaration of an operation
(the PaymentGatewayDatabase trait in db/common.rs) and the implementation is
not part of the provided sources, the operation is modelled from the spec;
each such definition carries a doc comment saying so.
-/

namespace TariPayment

/-! ## Basic domain types (spec section 3, db_types usage in the sources) -/

/-- Order lifecycle states, from the spec's status set
New, Unclaimed, Claimed, Paid, Cancelled, Expired. -/
inductive OrderStatus where
  | New
  | Unclaimed
  | Claimed
  | Paid
  | Cancelled
  | Expired
deriving DecidableEq, Repr

/-- Payment transfer states, from the spec's status set
Received, Confirmed, Cancelled (TransferStatus in the sources). -/
inductive TransferStatus where
  | Received
  | Confirmed
  | Cancelled
deriving DecidableEq, Repr

/-- Terminal payment states: Confirmed and Cancelled are terminal, Received is not. -/
def TransferStatus.isTerminal : TransferStatus → Bool
  | .Received => false
  | .Confirmed => true
  | .Cancelled => true

/-- Payment provenance, from the spec: OnChain or Manual. -/
inductive PaymentType where
  | OnChain
  | Manual
deriving DecidableEq, Repr

/-- An order row. Amounts are i64 in the source, embedded as Int.
The created_at column is embedded as a Nat timestamp. -/
structure Order where
  order_id : String
  customer_id : String
  account_id : Int
  amount : Int
  status : OrderStatus
  created_at : Nat
deriving DecidableEq, Repr

/-- A payment row of the payments table. The engine associates each stored
payment with the account resolved from its sender address; the sqlite schema
reaches that account through the identity-link of the sender, embedded here
directly as the account_id field. -/
structure PaymentRow where
  txid : String
  sender : String
  amount : Int
  memo : Option String
  order_id : Option String
  payment_type : PaymentType
  status : TransferStatus
  created_at : Nat
  account_id : Int
deriving DecidableEq, Repr

/-- Incoming order payload (NewOrder in db_types). -/
structure NewOrder where
  order_id : String
  customer_id : String
  amount : Int
  memo : Option String
deriving DecidableEq, Repr

/-- Incoming payment payload (NewPayment in db_types): the columns bound by
idempotent_insert in sqlite/db/transfers.rs. -/
structure NewPayment where
  txid : String
  sender : String
  amount : Int
  memo : Option String
  order_id : Option String
deriving DecidableEq, Repr

/-! ## Error types (tari_payment_server/src/errors.rs) -/

/-- Account-level API errors; only InsufficientFunds is named in
errors.rs, other variants fall to the catch-all conversion arm. -/
inductive AccountApiError where
  | InsufficientFunds
  | DatabaseError (msg : String)
deriving DecidableEq, Repr

/-- Errors of the payment-gateway engine, as matched in errors.rs and
raised in sqlite/db/transfers.rs. -/
inductive PaymentGatewayError where
  | AccountError (e : AccountApiError)
  | OrderModificationNoOp
  | OrderModificationForbidden
  | AccountShouldExistForOrder (oid : String)
  | OrderNotFound (oid : String)
  | UnsupportedAction (msg : String)
  | InvalidSignature
  | PaymentAlreadyExists (txid : String)
  | OrderAlreadyExists (oid : String)
  | PaymentStatusUpdateError (msg : String)
  | InvalidTransition (msg : String)
  | IdentityConflict
  | DatabaseError (msg : String)
deriving DecidableEq, Repr

/-- Authentication errors, from errors.rs. -/
inductive AuthError where
  | InvalidPublicKey
  | InsufficientPermissions (msg : String)
  | ValidationError (msg : String)
  | PoorlyFormattedToken (msg : String)
  | AccountNotFound
  | ForbiddenPeer
deriving DecidableEq, Repr

/-- Server-level errors, from the ServerError enum in errors.rs.
The IoError constructor embeds the source's IOError variant. -/
inductive ServerError where
  | InitializeError (msg : String)
  | BackendError (msg : String)
  | CouldNotDeserializePayload
  | CouldNotDeserializeAuthToken
  | InvalidRequestBody (msg : String)
  | InvalidRequestPath (msg : String)
  | IoError (msg : String)
  | OrderConversionError (msg : String)
  | ConfigurationError (msg : String)
  | Unspecified (msg : String)
  | AuthenticationError (e : AuthError)
  | CouldNotSerializeAccessToken (msg : String)
  | NoRecordFound (msg : String)
  | InsufficientPermissions (msg : String)
  | UnauthorizedWalletRequest
  | CannotCompleteRequest (msg : String)
  | UnsupportedAction (msg : String)
deriving DecidableEq, Repr

/-- HTTP status of each server error, from the status_code method of the
ResponseError impl in errors.rs, statuses written as their numeric codes. -/
def status_code : ServerError → Nat
  | .InvalidRequestBody _ => 400
  | .CannotCompleteRequest _ => 400
  | .CouldNotDeserializePayload => 400
  | .CouldNotDeserializeAuthToken => 400
  | .AuthenticationError e =>
    match e with
    | .InvalidPublicKey => 401
    | .InsufficientPermissions _ => 403
    | .ValidationError _ => 401
    | .PoorlyFormattedToken _ => 400
    | .AccountNotFound => 403
    | .ForbiddenPeer => 403
  | .InitializeError _ => 500
  | .BackendError _ => 500
  | .IoError _ => 500
  | .OrderConversionError _ => 500
  | .ConfigurationError _ => 500
  | .Unspecified _ => 500
  | .CouldNotSerializeAccessToken _ => 400
  | .InvalidRequestPath _ => 400
  | .NoRecordFound _ => 404
  | .InsufficientPermissions _ => 403
  | .UnauthorizedWalletRequest => 401
  | .UnsupportedAction _ => 501

/-- Modelled from the spec: the Display rendering of PaymentGatewayError used
by the conversion in errors.rs through to_string; the display text itself is
not part of the provided sources and no claim depends on its exact wording. -/
def pgeToString : PaymentGatewayError → String
  | .AccountError .InsufficientFunds => "insufficient funds"
  | .AccountError (.DatabaseError m) => "account database error: " ++ m
  | .OrderModificationNoOp => "order modification is a no-op"
  | .OrderModificationForbidden => "order modification forbidden"
  | .AccountShouldExistForOrder oid => "account should exist for order " ++ oid
  | .OrderNotFound oid => "order not found: " ++ oid
  | .UnsupportedAction m => "unsupported action: " ++ m
  | .InvalidSignature => "invalid signature"
  | .PaymentAlreadyExists t => "payment already exists: " ++ t
  | .OrderAlreadyExists oid => "order already exists: " ++ oid
  | .PaymentStatusUpdateError m => "payment status update error: " ++ m
  | .InvalidTransition m => "invalid transition: " ++ m
  | .IdentityConflict => "identity conflict"
  | .DatabaseError m => "database error: " ++ m

/-- Conversion of engine errors to server errors, from the
From PaymentGatewayError for ServerError impl in errors.rs. -/
def serverErrorOfPaymentGatewayError (e : PaymentGatewayError) : ServerError :=
  match e with
  | .AccountError .InsufficientFunds => .CannotCompleteRequest (pgeToString e)
  | .OrderModificationNoOp => .CannotCompleteRequest (pgeToString e)
  | .OrderModificationForbidden => .CannotCompleteRequest (pgeToString e)
  | .AccountShouldExistForOrder _ => .NoRecordFound (pgeToString e)
  | .OrderNotFound _ => .NoRecordFound (pgeToString e)
  | .UnsupportedAction _ => .CannotCompleteRequest (pgeToString e)
  | .InvalidSignature => .AuthenticationError (.ValidationError (pgeToString e))
  | _ => .BackendError (pgeToString e)

/-! ## Shopify IP-whitelist check (tari_payment_server/src/server.rs) -/

/-- An incoming service request, abstracted to the single datum the whitelist
check extracts from it: the peer IP determined by the get_remote_ip helper.
IP addresses are embedded as strings. -/
structure ServiceRequest where
  peer_ip : Option String
deriving DecidableEq, Repr

/-- Modelled from the spec: the get_remote_ip helper of
tari_payment_server/src/helpers.rs is not part of the provided sources; it
determines the peer IP of a request from the connection info and, when the
two flags allow it, the forwarding headers. It is abstracted as returning the
request's determined peer address. -/
def get_remote_ip (req : ServiceRequest) (use_x_forwarded_for : Bool) (use_forwarded : Bool) :
    Option String :=
  match use_x_forwarded_for, use_forwarded with
  | _, _ => req.peer_ip

/-- Whitelist admission check for the Shopify webhook scope, from
is_whitelisted in tari_payment_server/src/server.rs. -/
def is_whitelisted (use_x_forwarded_for : Bool) (use_forwarded : Bool)
    (shopify_whitelist : Option (List String)) (req : ServiceRequest) : Bool :=
  let peer_ip := get_remote_ip req use_x_forwarded_for use_forwarded
  match peer_ip, shopify_whitelist with
  | some ip, some whitelist => whitelist.contains ip
  | _, none => true
  | none, some _ => false

/-! ## Taritools profile manager (taritools/src/profile_manager.rs) -/

/-- User roles, from db_types usage in profile_manager.rs; only the User role
is named in the provided sources. -/
inductive Role where
  | User
  | Admin
deriving DecidableEq, Repr

/-- A taritools profile, from the Profile struct in profile_manager.rs.
Secret keys and addresses are embedded as strings; the server URL as a string. -/
structure Profile where
  name : String
  address : String
  secret_key : Option String
  secret_key_envar : Option String
  roles : List Role
  server : String
deriving DecidableEq, Repr

/-- Secret-key lookup of a profile, from the secret_key method in
profile_manager.rs. The process environment is embedded as a function from
variable names to optional values, and the hex parser of RistrettoSecretKey
as a function returning an optional key: the source's env::var(envar).ok()
and from_hex(s).map_err(warn).ok() both collapse failures to None. -/
def profile_secret_key (env : String → Option String) (from_hex : String → Option String)
    (p : Profile) : Option String :=
  p.secret_key.orElse fun _ =>
    p.secret_key_envar.bind fun envar =>
      (env envar).bind fun s => from_hex s

/-! ## Matcher (spec section 4.4; fetch_payable_orders and try_pay_orders of
the PaymentGatewayDatabase trait in db/common.rs) -/

/-- Ascending (created_at, order_id) ordering of orders, the tie-break order
of spec section 4.3. -/
def orderKeyLe (a b : Order) : Prop :=
  a.created_at < b.created_at ∨ (a.created_at = b.created_at ∧ a.order_id ≤ b.order_id)

instance : DecidableRel orderKeyLe := fun a b => by
  unfold orderKeyLe
  exact inferInstance

instance : IsTotal Order orderKeyLe :=
  ⟨fun a b => by
    unfold orderKeyLe
    rcases lt_trichotomy a.created_at b.created_at with h | h | h
    · exact Or.inl (Or.inl h)
    · rcases le_total a.order_id b.order_id with h2 | h2
      · exact Or.inl (Or.inr ⟨h, h2⟩)
      · exact Or.inr (Or.inr ⟨h.symm, h2⟩)
    · exact Or.inr (Or.inl h)⟩

instance : IsTrans Order orderKeyLe :=
  ⟨fun a b c hab hbc => by
    unfold orderKeyLe at hab hbc ⊢
    rcases hab with h1 | ⟨e1, s1⟩
    · rcases hbc with h2 | ⟨e2, s2⟩
      · exact Or.inl (h1.trans h2)
      · exact Or.inl (e2 ▸ h1)
    · rcases hbc with h2 | ⟨e2, s2⟩
      · exact Or.inl (e1 ▸ h2)
      · exact Or.inr ⟨e1.trans e2, s1.trans s2⟩⟩

/-- Modelled from the spec: fetch_payable_orders of the PaymentGatewayDatabase
trait (db/common.rs) has only its declaration in the provided sources; per
spec section 4.4 it reads all Claimed orders of the account, ordered by
(created_at, order_id). -/
def fetch_payable_orders (orders : List Order) : List Order :=
  List.insertionSort orderKeyLe (orders.filter fun o => decide (o.status = OrderStatus.Claimed))

/-- Transition an order to Paid. -/
def markPaid (o : Order) : Order := { o with status := OrderStatus.Paid }

/-- Greedy selection of spec section 4.4 step 2: take orders from the given
sequence while each fits the remaining balance, stopping at the first order
whose amount exceeds it. -/
def selectPayable (spendable : Int) : List Order → List Order
  | [] => []
  | o :: rest =>
    if o.amount ≤ spendable then o :: selectPayable (spendable - o.amount) rest else []

/-- Sum of the amounts of a list of orders. -/
def amountSum (orders : List Order) : Int := (orders.map Order.amount).sum

/-- Modelled from the spec: try_pay_orders of the PaymentGatewayDatabase trait
(db/common.rs) has only its declaration in the provided sources; per spec
section 4.4 it greedily selects orders until the next would exceed the
spendable balance, marks each selected order Paid, debits the account by each
amount, and returns the newly paid orders. The pair holds the paid orders and
the account's new spendable balance. -/
def try_pay_orders (spendable : Int) (orders : List Order) : List Order × Int :=
  let selected := selectPayable spendable orders
  (selected.map markPaid, spendable - amountSum selected)

/-- The matcher of spec section 4.4: fetch the payable orders, then attempt
to pay them from the spendable balance. -/
def matcher (spendable : Int) (orders : List Order) : List Order × Int :=
  try_pay_orders spendable (fetch_payable_orders orders)

/-! ## Store state (spec sections 3 and 4.1) -/

/-- Identity kinds of spec section 3: CustomerId and WalletAddress. -/
inductive LinkKind where
  | CustomerId
  | WalletAddress
deriving DecidableEq, Repr

/-- An identity link entry (kind, key) mapped to an account id. -/
structure IdentityLink where
  kind : LinkKind
  key : String
  account_id : Int
deriving DecidableEq, Repr

/-- An account row: id, cumulative credits, cumulative debits, pending total. -/
structure AccountRow where
  id : Int
  credits : Int
  debits : Int
  pending : Int
deriving DecidableEq, Repr

/-- The durable store of spec section 4.1: accounts, identity links, orders
and payments, with the next fresh account id. -/
structure Store where
  nextAccountId : Int
  links : List IdentityLink
  accounts : List AccountRow
  orders : List Order
  payments : List PaymentRow
deriving DecidableEq, Repr

/-- Domain events of the event bus (spec section 2.5). -/
inductive Event where
  | OrderReceived (oid : String)
  | OrderPaid (oid : String)
  | OrderCancelled (oid : String)
  | PaymentReceived (txid : String)
  | PaymentConfirmed (txid : String)
deriving DecidableEq, Repr

/-- Resolve an identity key of the given kind to its linked account id. -/
def lookupLink (links : List IdentityLink) (kind : LinkKind) (key : String) : Option Int :=
  (links.find? fun l => l.kind == kind && l.key == key).map IdentityLink.account_id

/-- Attach an identity link for the given optional key to the account. -/
def attachLink (s : Store) (kind : LinkKind) (key : Option String) (acc : Int) : Store :=
  match key with
  | none => s
  | some k => { s with links := ⟨kind, k, acc⟩ :: s.links }

/-- Modelled from the spec: fetch_or_create_account of the
PaymentGatewayDatabase trait (db/common.rs) has only its declaration in the
provided sources. Per the trait's doc comment and spec sections 4.1 and 4.2:
if both provided identities resolve to different existing accounts the call
fails with IdentityConflict; otherwise it returns the account that any link
matches, attaching any missing link; otherwise it creates a new account and
attaches the provided identity links to it. The pair holds the result and
the post-state. -/
def fetch_or_create_account (s : Store) (cust_id : Option String) (address : Option String) :
    Except PaymentGatewayError Int × Store :=
  let custAcc := cust_id.bind fun c => lookupLink s.links LinkKind.CustomerId c
  let addrAcc := address.bind fun a => lookupLink s.links LinkKind.WalletAddress a
  match custAcc, addrAcc with
  | some a1, some a2 =>
    if a1 = a2 then (Except.ok a1, s) else (Except.error PaymentGatewayError.IdentityConflict, s)
  | some a1, none => (Except.ok a1, attachLink s LinkKind.WalletAddress address a1)
  | none, some a2 => (Except.ok a2, attachLink s LinkKind.CustomerId cust_id a2)
  | none, none =>
    let acc := s.nextAccountId
    let s1 := { s with nextAccountId := acc + 1, accounts := ⟨acc, 0, 0, 0⟩ :: s.accounts }
    (Except.ok acc,
      attachLink (attachLink s1 LinkKind.CustomerId cust_id acc) LinkKind.WalletAddress address acc)

/-! ## Payments (sqlite/db/transfers.rs) -/

/-- Find a payment row by its txid key. -/
def findPayment (payments : List PaymentRow) (txid : String) : Option PaymentRow :=
  payments.find? fun p => p.txid == txid

/-- Idempotent insert of a payment, from idempotent_insert in
sqlite/db/transfers.rs: insert the new payment row with the schema defaults
for status and type (Received, OnChain), surfacing a PaymentAlreadyExists
error when the unique txid key is violated. The resolved account and the
created_at column value are passed explicitly. -/
def idempotent_insert (transfer : NewPayment) (accId : Int) (createdAt : Nat)
    (payments : List PaymentRow) : Except PaymentGatewayError (PaymentRow × List PaymentRow) :=
  match findPayment payments transfer.txid with
  | some _ => Except.error (PaymentGatewayError.PaymentAlreadyExists transfer.txid)
  | none =>
    let row : PaymentRow :=
      { txid := transfer.txid, sender := transfer.sender, amount := transfer.amount,
        memo := transfer.memo, order_id := transfer.order_id,
        payment_type := PaymentType.OnChain, status := TransferStatus.Received,
        created_at := createdAt, account_id := accId }
    Except.ok (row, row :: payments)

/-- Result of the idempotent order insert, from InsertOrderResult in
db/common.rs; the source's i64 row ids are embedded as the order_id key. -/
inductive InsertOrderResult where
  | Inserted (order_id : String)
  | AlreadyExists (order_id : String)
deriving DecidableEq, Repr

/-- Modelled from the spec: insert_order_idempotent of spec section 4.1 is
declared through InsertOrderResult in db/common.rs without an implementation
in the provided sources; keyed on order_id, on conflict it returns the
existing row's key unchanged, otherwise it inserts the order with initial
status Unclaimed. -/
def insert_order_idempotent (o : NewOrder) (accId : Int) (createdAt : Nat)
    (orders : List Order) : InsertOrderResult × List Order :=
  match orders.find? (fun r => r.order_id == o.order_id) with
  | some r => (InsertOrderResult.AlreadyExists r.order_id, orders)
  | none =>
    let row : Order :=
      { order_id := o.order_id, customer_id := o.customer_id, account_id := accId,
        amount := o.amount, status := OrderStatus.Unclaimed, created_at := createdAt }
    (InsertOrderResult.Inserted o.order_id, row :: orders)

/-- Add a signed amount to the pending total of the given account. -/
def addPending (s : Store) (accId : Int) (amt : Int) : Store :=
  { s with accounts := s.accounts.map fun a =>
      if a.id == accId then { a with pending := a.pending + amt } else a }

/-- Modelled from the spec: process_new_order_for_customer of the
PaymentGatewayDatabase trait (db/common.rs) has only its declaration in the
provided sources. Per the trait's doc comment and spec section 4.3: resolve
the customer's account (creating it if needed), insert the order
idempotently — when the order already exists nothing further is done and no
event is emitted — otherwise add the amount to the account's pending total
and emit OrderReceived. Returns the account id, the post-state, and the
events emitted by this call. -/
def process_new_order_for_customer (s : Store) (o : NewOrder) (createdAt : Nat) :
    Except PaymentGatewayError (Int × Store × List Event) :=
  match fetch_or_create_account s (some o.customer_id) none with
  | (Except.error e, _) => Except.error e
  | (Except.ok accId, s1) =>
    match insert_order_idempotent o accId createdAt s1.orders with
    | (InsertOrderResult.AlreadyExists _, _) => Except.ok (accId, s1, [])
    | (InsertOrderResult.Inserted _, orders1) =>
      let s2 := addPending { s1 with orders := orders1 } accId o.amount
      Except.ok (accId, s2, [Event.OrderReceived o.order_id])

/-- Modelled from the spec: process_new_payment_for_pubkey of the
PaymentGatewayDatabase trait (db/common.rs) has only its declaration in the
provided sources. Per the trait's doc comment and spec section 4.3: resolve
the sender's account (creating it if needed), insert the payment idempotently
with initial status Received — a duplicate txid is recovered locally as
success and emits no event — otherwise emit PaymentReceived. The payment
contributes to pending credit only; the spendable balance is untouched. -/
def process_new_payment_for_pubkey (s : Store) (p : NewPayment) (createdAt : Nat) :
    Except PaymentGatewayError (Int × Store × List Event) :=
  match fetch_or_create_account s none (some p.sender) with
  | (Except.error e, _) => Except.error e
  | (Except.ok accId, s1) =>
    match idempotent_insert p accId createdAt s1.payments with
    | Except.error (PaymentGatewayError.PaymentAlreadyExists _) => Except.ok (accId, s1, [])
    | Except.error e => Except.error e
    | Except.ok (_, payments1) =>
      Except.ok (accId, { s1 with payments := payments1 }, [Event.PaymentReceived p.txid])

/-- Set the status of the payment row with the given txid, from the UPDATE
statement of update_status in sqlite/db/transfers.rs. -/
def setPaymentStatus (payments : List PaymentRow) (txid : String) (status : TransferStatus) :
    List PaymentRow :=
  payments.map fun p => if p.txid == txid then { p with status := status } else p

/-- Modelled from the spec: update_payment_status of the
PaymentGatewayDatabase trait (db/common.rs) has only its declaration in the
provided sources; the row update it relies on is update_status in
sqlite/db/transfers.rs, which fails with PaymentStatusUpdateError naming the
missing txid when no row matches. Per the trait's doc comment and spec
section 4.1: an unknown txid fails with the not-found error; a payment whose
current status is terminal fails with InvalidTransition; an unchanged status
changes nothing and returns none; otherwise the status is updated and the
payment's account id is returned. -/
def update_payment_status (s : Store) (txid : String) (newStatus : TransferStatus) :
    Except PaymentGatewayError (Option Int × Store) :=
  match findPayment s.payments txid with
  | none =>
    Except.error (PaymentGatewayError.PaymentStatusUpdateError
      ("Payment for " ++ txid ++ " does not exist"))
  | some p =>
    if p.status.isTerminal then
      Except.error (PaymentGatewayError.InvalidTransition
        ("Payment " ++ txid ++ " is already in a terminal state"))
    else if newStatus = p.status then
      Except.ok (none, s)
    else
      Except.ok (some p.account_id,
        { s with payments := setPaymentStatus s.payments txid newStatus })

/-! ## Credit notes (sqlite/db/transfers.rs, credit_note) -/

/-- Modelled from the spec: create_dummy_address_for_cust_id of the helpers
module is not part of the provided sources; per the spec it derives a
deterministic dummy sender address from the customer id alone. -/
def create_dummy_address_for_cust_id (cust_id : String) : String :=
  "dummy-address-for-" ++ cust_id

/-- A credit-note request (CreditNote in db_types): customer id, amount, and
an optional reason. -/
structure CreditNote where
  customer_id : String
  amount : Int
  reason : Option String
deriving DecidableEq, Repr

/-- Credit-note issue, from credit_note in sqlite/db/transfers.rs: the payment
row it inserts, with the synthesized txid, the dummy sender address, payment
type Manual and status Confirmed. The issuing timestamp (Utc::now in the
source), the created_at column value, and the resolved account are passed
explicitly. -/
def credit_note (note : CreditNote) (timestamp : Int) (accId : Int) (createdAt : Nat) :
    PaymentRow :=
  { txid := "credit_note_" ++ note.customer_id ++ ":" ++ toString note.amount ++ ":"
      ++ toString timestamp
  , sender := create_dummy_address_for_cust_id note.customer_id
  , amount := note.amount
  , memo := some ("Credit note: " ++ note.reason.getD "No reason given")
  , order_id := none
  , payment_type := PaymentType.Manual
  , status := TransferStatus.Confirmed
  , created_at := createdAt
  , account_id := accId }

/-- Modelled from the spec: the credit-note txid template of spec section 3,
the literal credit_note_ followed by the customer id, a colon, the amount, a
colon, and the issuing timestamp. -/
def specCreditNoteTxid (cust : String) (amount : Int) (ts : Int) : String :=
  "credit_note_" ++ cust ++ ":" ++ toString amount ++ ":" ++ toString ts

/-! ## Pending-credit view (sqlite/db/transfers.rs, pending_payments) -/

/-- Ascending created_at ordering of payment rows, the ORDER BY created_at of
the pending_payments query. -/
def createdAtLe (a b : PaymentRow) : Prop := a.created_at ≤ b.created_at

instance : DecidableRel createdAtLe := fun a b => by
  unfold createdAtLe
  exact inferInstance

instance : IsTotal PaymentRow createdAtLe :=
  ⟨fun a b => le_total a.created_at b.created_at⟩

instance : IsTrans PaymentRow createdAtLe :=
  ⟨fun _ _ _ hab hbc => le_trans hab hbc⟩

/-- Pending-credit view, from pending_payments in sqlite/db/transfers.rs: the
payments whose status is Received and whose sender is the given address, in
ascending created_at order. -/
def pending_payments (address : String) (payments : List PaymentRow) : List PaymentRow :=
  List.insertionSort createdAtLe
    (payments.filter fun p => decide (p.status = TransferStatus.Received) && (p.sender == address))

/-- Modelled from the spec: the spendable-balance contribution of an address,
to which only Confirmed payments contribute per spec section 3; the balance
aggregation query itself is not part of the provided sources. -/
def confirmed_credit (address : String) (payments : List PaymentRow) : Int :=
  ((payments.filter fun p =>
      decide (p.status = TransferStatus.Confirmed) && (p.sender == address)).map
    PaymentRow.amount).sum

/-! ## Account invariants (spec sections 3, 4.3 and 8) -/

/-- A single account's balance state together with its orders: the state over
which the invariants of spec section 8 are stated. Accounts evolve
independently, one transaction at a time, so the reachable states of one
account describe every account. -/
structure AccountState where
  credits : Int
  debits : Int
  pending : Int
  orders : List Order
deriving DecidableEq, Repr

/-- An order is open when it is Unclaimed or Claimed; open orders contribute
to the account's pending total (spec section 8, invariant 3). -/
def openOrder (o : Order) : Prop :=
  o.status = OrderStatus.Unclaimed ∨ o.status = OrderStatus.Claimed

instance : DecidablePred openOrder := fun o => by
  unfold openOrder
  exact inferInstance

/-- The pending total determined by a list of orders: the sum of the amounts
of its open orders. -/
def pendingTotal (orders : List Order) : Int :=
  ((orders.filter fun o => decide (openOrder o)).map Order.amount).sum

/-- Modelled from the spec: the money-touching transitions of a single
account, from spec sections 4.3 and 4.4 — order ingestion, claiming, payment
confirmation, the matcher's payout, expiry, administrative cancellation, and
the administrative reset_order, which moves a Paid order back to Claimed and
reverses the account deltas of its payout. The spec has reset refuse when the
order was fulfilled externally; external fulfilment is outside this state, so
the transition here permits every reset of a Paid order. The engine
implementing these transitions is not part of the provided sources. -/
inductive Step : AccountState → AccountState → Prop where
  | newOrder (s : AccountState) (o : Order) (hamt : 0 ≤ o.amount) (hopen : openOrder o) :
      Step s ⟨s.credits, s.debits, s.pending + o.amount, o :: s.orders⟩
  | claimOrder (c d p : Int) (pre post : List Order) (o : Order)
      (hst : o.status = OrderStatus.Unclaimed) :
      Step ⟨c, d, p, pre ++ o :: post⟩
        ⟨c, d, p, pre ++ { o with status := OrderStatus.Claimed } :: post⟩
  | confirmPayment (s : AccountState) (a : Int) (ha : 0 ≤ a) :
      Step s ⟨s.credits + a, s.debits, s.pending, s.orders⟩
  | payOrder (c d p : Int) (pre post : List Order) (o : Order)
      (hst : o.status = OrderStatus.Claimed) (hfunds : d + o.amount ≤ c) :
      Step ⟨c, d, p, pre ++ o :: post⟩
        ⟨c, d + o.amount, p - o.amount, pre ++ { o with status := OrderStatus.Paid } :: post⟩
  | expireOrder (c d p : Int) (pre post : List Order) (o : Order) (hopen : openOrder o) :
      Step ⟨c, d, p, pre ++ o :: post⟩
        ⟨c, d, p - o.amount, pre ++ { o with status := OrderStatus.Expired } :: post⟩
  | cancelOrder (c d p : Int) (pre post : List Order) (o : Order) (hopen : openOrder o) :
      Step ⟨c, d, p, pre ++ o :: post⟩
        ⟨c, d, p - o.amount, pre ++ { o with status := OrderStatus.Cancelled } :: post⟩
  | resetOrder (c d p : Int) (pre post : List Order) (o : Order)
      (hst : o.status = OrderStatus.Paid) :
      Step ⟨c, d, p, pre ++ o :: post⟩
        ⟨c, d - o.amount, p + o.amount, pre ++ { o with status := OrderStatus.Claimed } :: post⟩

/-- Shape of the administrative reset transition of spec section 4.3: a Paid
order moves back to Claimed and the account deltas of its payout are
reversed, decreasing debits by the order's amount. -/
def isResetStep (s s' : AccountState) : Prop :=
  ∃ pre post o, o.status = OrderStatus.Paid ∧ s.orders = pre ++ o :: post ∧
    s' = ⟨s.credits, s.debits - o.amount, s.pending + o.amount,
      pre ++ { o with status := OrderStatus.Claimed } :: post⟩

/-- The initial account state: zero balances and no orders. -/
def initialAccount : AccountState := ⟨0, 0, 0, []⟩

/-- Reachability of an account state from the initial state under the
engine's transitions. -/
def ReachableAccount (s : AccountState) : Prop :=
  Relation.ReflTransGen Step initialAccount s

/-- The inductive account invariant: credits cover debits, the stored pending
value agrees with the open orders' amount total, and all order amounts are
non-negative. -/
def AccountInv (s : AccountState) : Prop :=
  s.debits ≤ s.credits ∧ s.pending = pendingTotal s.orders ∧ ∀ o ∈ s.orders, 0 ≤ o.amount

/-- Sample claimed order of amount 3 for exercising the reset transition. -/
def resetSampleOrder : Order := ⟨"A", "c1", 0, 3, OrderStatus.Claimed, 0⟩

/-- The sample order after the matcher paid it. -/
def resetSamplePaid : Order := ⟨"A", "c1", 0, 3, OrderStatus.Paid, 0⟩

/-- A reachable account state holding the paid sample order: credits 5 from a
confirmed payment, debits 3 from paying the sample order. -/
def resetSampleState : AccountState := ⟨5, 3, 0, [resetSamplePaid]⟩

/-- The account state after the administrative reset of the paid sample
order: debits decreased by its amount, the order claimed again. -/
def resetSampleAfter : AccountState := ⟨5, 0, 3, [⟨"A", "c1", 0, 3, OrderStatus.Claimed, 0⟩]⟩

/-- Sample order list exercising the matcher: two claimed orders out of
key order plus an unclaimed one. -/
def c1SampleOrders : List Order :=
  [⟨"B", "c1", 1, 4, OrderStatus.Claimed, 2⟩,
   ⟨"A", "c1", 1, 3, OrderStatus.Claimed, 1⟩,
   ⟨"C", "c1", 1, 2, OrderStatus.Unclaimed, 0⟩]

/-- Sample Received payment from sender W. -/
def c7Received : PaymentRow :=
  ⟨"t1", "W", 40, none, none, PaymentType.OnChain, TransferStatus.Received, 1, 7⟩

/-- Sample Confirmed payment from sender W. -/
def c7Confirmed : PaymentRow :=
  ⟨"t2", "W", 100, none, none, PaymentType.OnChain, TransferStatus.Confirmed, 0, 7⟩

/-- Sample payment in status Received for the C2 witness. -/
def c2Payment : PaymentRow :=
  ⟨"t1", "W", 100, none, none, PaymentType.OnChain, TransferStatus.Received, 0, 7⟩

/-- Sample store holding the C2 sample payment. -/
def c2Store : Store :=
  ⟨8, [⟨LinkKind.WalletAddress, "W", 7⟩], [⟨7, 0, 0, 0⟩], [], [c2Payment]⟩

/-- Sample store with a conflicting pair of identity links for the C4
witness. -/
def c4Store : Store :=
  ⟨3, [⟨LinkKind.CustomerId, "c1", 1⟩, ⟨LinkKind.WalletAddress, "W", 2⟩],
    [⟨1, 0, 0, 0⟩, ⟨2, 0, 0, 0⟩], [], []⟩

/-- The empty store. -/
def c3EmptyStore : Store := ⟨0, [], [], [], []⟩

/-- Sample new order for the C3 witness. -/
def c3Order : NewOrder := ⟨"A", "c1", 100, none⟩

/-- Sample new payment for the C3 witness. -/
def c3Payment : NewPayment := ⟨"t1", "W", 100, none, none⟩

/-- The store after processing the sample order once on the empty store. -/
def c3FirstStore : Store :=
  ⟨1, [⟨LinkKind.CustomerId, "c1", 0⟩], [⟨0, 0, 0, 100⟩],
    [⟨"A", "c1", 0, 100, OrderStatus.Unclaimed, 0⟩], []⟩

/-- The store after processing the sample payment once on the empty store. -/
def c3PayStore : Store :=
  ⟨1, [⟨LinkKind.WalletAddress, "W", 0⟩], [⟨0, 0, 0, 0⟩], [],
    [⟨"t1", "W", 100, none, none, PaymentType.OnChain, TransferStatus.Received, 0, 0⟩]⟩

lemma amountSum_nil : amountSum [] = 0 := rfl

lemma amountSum_cons (o : Order) (l : List Order) :
    amountSum (o :: l) = o.amount + amountSum l := by
  simp [amountSum]

/-- The greedy selection is an initial segment of its input, and the first
order left behind, if any, exceeds the remaining balance. -/
lemma selectPayable_initial :
    ∀ (l : List Order) (s : Int), ∃ rest, l = selectPayable s l ++ rest ∧
      ∀ o, rest.head? = some o → s - amountSum (selectPayable s l) < o.amount
  | [], s => ⟨[], by simp [selectPayable]⟩
  | o :: l, s => by
    by_cases h : o.amount ≤ s
    · obtain ⟨rest, hsplit, hstop⟩ := selectPayable_initial l (s - o.amount)
      refine ⟨rest, ?_, ?_⟩
      · simp [selectPayable, h]
        exact hsplit
      · intro o' ho'
        have := hstop o' ho'
        simp only [selectPayable, if_pos h, amountSum_cons]
        have heq : s - (o.amount + amountSum (selectPayable (s - o.amount) l)) =
            s - o.amount - amountSum (selectPayable (s - o.amount) l) := by ring
        rw [heq]
        exact this
    · refine ⟨o :: l, ?_, ?_⟩
      · simp [selectPayable, h]
      · intro o' ho'
        simp only [List.head?] at ho'
        cases ho'
        simp only [selectPayable, if_neg h, amountSum_nil]
        omega
  termination_by l => l.length

/-- The greedy selection never overspends a non-negative balance. -/
lemma amountSum_selectPayable_le :
    ∀ (l : List Order) (s : Int), 0 ≤ s → amountSum (selectPayable s l) ≤ s
  | [], s, hs => by simpa [selectPayable, amountSum_nil] using hs
  | o :: l, s, hs => by
    by_cases h : o.amount ≤ s
    · have ih := amountSum_selectPayable_le l (s - o.amount) (by omega)
      simp only [selectPayable, if_pos h, amountSum_cons]
      omega
    · simp only [selectPayable, if_neg h, amountSum_nil]
      exact hs
  termination_by l => l.length

lemma pendingTotal_nil : pendingTotal [] = 0 := rfl

lemma pendingTotal_cons (o : Order) (l : List Order) :
    pendingTotal (o :: l) = (if openOrder o then o.amount else 0) + pendingTotal l := by
  by_cases h : openOrder o
  · simp [pendingTotal, List.filter_cons, h]
  · simp [pendingTotal, List.filter_cons, h]

lemma pendingTotal_append (l1 l2 : List Order) :
    pendingTotal (l1 ++ l2) = pendingTotal l1 + pendingTotal l2 := by
  simp [pendingTotal, List.filter_append]

lemma pendingTotal_nonneg (l : List Order) (h : ∀ o ∈ l, 0 ≤ o.amount) :
    0 ≤ pendingTotal l := by
  refine List.sum_nonneg ?_
  intro x hx
  obtain ⟨o, ho, rfl⟩ := List.mem_map.mp hx
  exact h o (List.mem_filter.mp ho).1

lemma amounts_nonneg_replace {pre post : List Order} {o o' : Order}
    (h : ∀ x ∈ pre ++ o :: post, 0 ≤ x.amount) (he : o'.amount = o.amount) :
    ∀ x ∈ pre ++ o' :: post, 0 ≤ x.amount := by
  intro x hx
  rcases List.mem_append.mp hx with h1 | h2
  · exact h x (List.mem_append.mpr (Or.inl h1))
  · rcases List.mem_cons.mp h2 with rfl | h3
    · rw [he]
      exact h o (List.mem_append.mpr (Or.inr (List.mem_cons_self o post)))
    · exact h x (List.mem_append.mpr (Or.inr (List.mem_cons_of_mem o h3)))

lemma pendingTotal_replace_open {pre post : List Order} {o o' : Order}
    (ho : openOrder o) (ho' : openOrder o') (he : o'.amount = o.amount) :
    pendingTotal (pre ++ o' :: post) = pendingTotal (pre ++ o :: post) := by
  rw [pendingTotal_append, pendingTotal_append, pendingTotal_cons, pendingTotal_cons,
    if_pos ho, if_pos ho', he]

lemma pendingTotal_replace_closed {pre post : List Order} {o o' : Order}
    (ho : openOrder o) (ho' : ¬openOrder o') :
    pendingTotal (pre ++ o' :: post) = pendingTotal (pre ++ o :: post) - o.amount := by
  rw [pendingTotal_append, pendingTotal_append, pendingTotal_cons, pendingTotal_cons,
    if_pos ho, if_neg ho']
  ring

lemma pendingTotal_replace_opened {pre post : List Order} {o o' : Order}
    (ho : ¬openOrder o) (ho' : openOrder o') (he : o'.amount = o.amount) :
    pendingTotal (pre ++ o' :: post) = pendingTotal (pre ++ o :: post) + o.amount := by
  rw [pendingTotal_append, pendingTotal_append, pendingTotal_cons, pendingTotal_cons,
    if_neg ho, if_pos ho', he]
  ring

/-- Every transition preserves the account invariant. -/
lemma step_preserves_inv {s s' : AccountState} (hs : AccountInv s) (h : Step s s') :
    AccountInv s' := by
  obtain ⟨hcd, hp, ha⟩ := hs
  unfold AccountInv
  cases h with
  | newOrder s o hamt hopen =>
    dsimp only at hcd hp ha ⊢
    refine ⟨hcd, ?_, ?_⟩
    · rw [pendingTotal_cons, if_pos hopen, hp]
      ring
    · intro x hx
      rcases List.mem_cons.mp hx with rfl | h3
      · exact hamt
      · exact ha x h3
  | claimOrder c d p pre post o hst =>
    dsimp only at hcd hp ha ⊢
    have hopen : openOrder o := Or.inl hst
    have hopen' : openOrder { o with status := OrderStatus.Claimed } := Or.inr rfl
    refine ⟨hcd, ?_, amounts_nonneg_replace ha rfl⟩
    rw [pendingTotal_replace_open hopen hopen' rfl]
    exact hp
  | confirmPayment s a haa =>
    dsimp only at hcd hp ha ⊢
    exact ⟨by omega, hp, ha⟩
  | payOrder c d p pre post o hst hfunds =>
    dsimp only at hcd hp ha ⊢
    have hopen : openOrder o := Or.inr hst
    have hclosed : ¬openOrder { o with status := OrderStatus.Paid } := by
      intro hx
      rcases hx with hx | hx <;> simp [openOrder] at hx
    refine ⟨hfunds, ?_, amounts_nonneg_replace ha rfl⟩
    rw [pendingTotal_replace_closed hopen hclosed, hp]
  | expireOrder c d p pre post o hopen =>
    dsimp only at hcd hp ha ⊢
    have hclosed : ¬openOrder { o with status := OrderStatus.Expired } := by
      intro hx
      rcases hx with hx | hx <;> simp [openOrder] at hx
    refine ⟨hcd, ?_, amounts_nonneg_replace ha rfl⟩
    rw [pendingTotal_replace_closed hopen hclosed, hp]
  | cancelOrder c d p pre post o hopen =>
    dsimp only at hcd hp ha ⊢
    have hclosed : ¬openOrder { o with status := OrderStatus.Cancelled } := by
      intro hx
      rcases hx with hx | hx <;> simp [openOrder] at hx
    refine ⟨hcd, ?_, amounts_nonneg_replace ha rfl⟩
    rw [pendingTotal_replace_closed hopen hclosed, hp]
  | resetOrder c d p pre post o hst =>
    dsimp only at hcd hp ha ⊢
    have hclosed : ¬openOrder o := by simp [openOrder, hst]
    have hopen' : openOrder { o with status := OrderStatus.Claimed } := Or.inr rfl
    have h0 : 0 ≤ o.amount :=
      ha o (List.mem_append.mpr (Or.inr (List.mem_cons_self o post)))
    refine ⟨by omega, ?_, amounts_nonneg_replace ha rfl⟩
    rw [pendingTotal_replace_opened hclosed hopen' rfl, hp]

/-- Every transition leaves the cumulative credits aggregate
non-decreasing. -/
lemma step_credits_monotone {s s' : AccountState} (h : Step s s') :
    s.credits ≤ s'.credits := by
  cases h with
  | newOrder s o hamt hopen => exact le_refl _
  | claimOrder c d p pre post o hst => exact le_refl _
  | confirmPayment s a haa =>
    dsimp only
    omega
  | payOrder c d p pre post o hst hfunds => exact le_refl _
  | expireOrder c d p pre post o hopen => exact le_refl _
  | cancelOrder c d p pre post o hopen => exact le_refl _
  | resetOrder c d p pre post o hst => exact le_refl _

/-- From an invariant-satisfying state, a transition either leaves the
cumulative debits aggregate non-decreasing or is an administrative reset of
a paid order, which decreases debits by exactly that order's amount. -/
lemma step_debits_cases {s s' : AccountState} (hs : AccountInv s) (h : Step s s') :
    s.debits ≤ s'.debits ∨ isResetStep s s' := by
  obtain ⟨hcd, hp, ha⟩ := hs
  cases h with
  | newOrder s o hamt hopen => exact Or.inl (le_refl _)
  | claimOrder c d p pre post o hst => exact Or.inl (le_refl _)
  | confirmPayment s a haa => exact Or.inl (le_refl _)
  | payOrder c d p pre post o hst hfunds =>
    dsimp only at hcd hp ha ⊢
    have h0 : 0 ≤ o.amount :=
      ha o (List.mem_append.mpr (Or.inr (List.mem_cons_self o post)))
    exact Or.inl (by omega)
  | expireOrder c d p pre post o hopen => exact Or.inl (le_refl _)
  | cancelOrder c d p pre post o hopen => exact Or.inl (le_refl _)
  | resetOrder c d p pre post o hst =>
    exact Or.inr ⟨pre, post, o, hst, rfl, rfl⟩

/-- Every reachable account state satisfies the account invariant. -/
lemma reachable_account_inv {s : AccountState} (h : ReachableAccount s) : AccountInv s := by
  induction h with
  | refl => exact ⟨le_refl 0, rfl, fun o ho => nomatch ho⟩
  | tail _ hstep ih => exact step_preserves_inv ih hstep

/-- The sample state with the paid order is reachable: confirm a payment of
5, ingest the claimed sample order of amount 3, and let the matcher pay it. -/
lemma resetSampleState_reachable : ReachableAccount resetSampleState := by
  have h1 : Step initialAccount ⟨5, 0, 0, []⟩ :=
    Step.confirmPayment initialAccount 5 (by norm_num)
  have h2 : Step ⟨5, 0, 0, []⟩ ⟨5, 0, 3, [resetSampleOrder]⟩ :=
    Step.newOrder ⟨5, 0, 0, []⟩ resetSampleOrder (by decide) (Or.inr rfl)
  have h3 : Step ⟨5, 0, 3, [resetSampleOrder]⟩ resetSampleState :=
    Step.payOrder 5 0 3 [] [] resetSampleOrder rfl (by decide)
  exact Relation.ReflTransGen.tail
    (Relation.ReflTransGen.tail (Relation.ReflTransGen.single h1) h2) h3

lemma findPayment_setPaymentStatus (txid : String) (st : TransferStatus) :
    ∀ (payments : List PaymentRow) (p : PaymentRow),
      findPayment payments txid = some p →
      findPayment (setPaymentStatus payments txid st) txid = some { p with status := st }
  | [], p, h => by simp [findPayment] at h
  | q :: l, p, h => by
    by_cases hq : (q.txid == txid) = true
    · simp only [findPayment, List.find?_cons, hq] at h
      injection h with h
      subst h
      simp only [setPaymentStatus, List.map_cons, if_pos hq, findPayment, List.find?_cons]
      simp [hq]
    · rw [Bool.not_eq_true] at hq
      simp only [findPayment, List.find?_cons, hq] at h
      have ih := findPayment_setPaymentStatus txid st l p h
      simp only [findPayment, setPaymentStatus] at ih ⊢
      simp only [List.map_cons]
      rw [if_neg (by simp [hq])]
      simp only [List.find?_cons, hq]
      exact ih

lemma attachLink_none (s : Store) (kind : LinkKind) (acc : Int) :
    attachLink s kind none acc = s := rfl

/-- After a successful order-processing call, the customer's identity link
resolves to the returned account and the order row exists. -/
lemma process_order_establishes (s : Store) (o : NewOrder) (t : Nat) (accId : Int)
    (s' : Store) (ev : List Event)
    (h : process_new_order_for_customer s o t = Except.ok (accId, s', ev)) :
    lookupLink s'.links LinkKind.CustomerId o.customer_id = some accId ∧
    (s'.orders.find? fun r => r.order_id == o.order_id).isSome = true := by
  unfold process_new_order_for_customer at h
  cases hl : lookupLink s.links LinkKind.CustomerId o.customer_id with
  | some a =>
    simp only [fetch_or_create_account, Option.some_bind, Option.none_bind, hl,
      attachLink] at h
    cases hf : s.orders.find? fun r => r.order_id == o.order_id with
    | some r =>
      simp only [insert_order_idempotent, hf, Except.ok.injEq, Prod.mk.injEq] at h
      obtain ⟨h1, h2, h3⟩ := h
      subst h1
      subst h2
      exact ⟨hl, by rw [hf]; rfl⟩
    | none =>
      simp only [insert_order_idempotent, hf, Except.ok.injEq, Prod.mk.injEq] at h
      obtain ⟨h1, h2, h3⟩ := h
      subst h1
      subst h2
      refine ⟨hl, ?_⟩
      simp [addPending, List.find?_cons]
  | none =>
    simp only [fetch_or_create_account, Option.some_bind, Option.none_bind, hl,
      attachLink] at h
    cases hf : s.orders.find? fun r => r.order_id == o.order_id with
    | some r =>
      simp only [insert_order_idempotent, hf, Except.ok.injEq, Prod.mk.injEq] at h
      obtain ⟨h1, h2, h3⟩ := h
      subst h1
      subst h2
      refine ⟨?_, by rw [hf]; rfl⟩
      simp [lookupLink, List.find?_cons]
    | none =>
      simp only [insert_order_idempotent, hf, Except.ok.injEq, Prod.mk.injEq] at h
      obtain ⟨h1, h2, h3⟩ := h
      subst h1
      subst h2
      refine ⟨?_, ?_⟩
      · simp [addPending, lookupLink, List.find?_cons]
      · simp [addPending, List.find?_cons]

/-- Processing an order whose order_id is already stored, for a customer
whose link is already resolved, is a no-op success. -/
lemma process_order_noop (s : Store) (o : NewOrder) (t : Nat) (accId : Int)
    (hl : lookupLink s.links LinkKind.CustomerId o.customer_id = some accId)
    (ho : (s.orders.find? fun r => r.order_id == o.order_id).isSome = true) :
    process_new_order_for_customer s o t = Except.ok (accId, s, []) := by
  obtain ⟨r, hr⟩ := Option.isSome_iff_exists.mp ho
  unfold process_new_order_for_customer
  simp [fetch_or_create_account, hl, attachLink, insert_order_idempotent, hr]

/-- After a successful payment-processing call, the sender's identity link
resolves to the returned account and the payment row exists. -/
lemma process_payment_establishes (s : Store) (p : NewPayment) (t : Nat) (accId : Int)
    (s' : Store) (ev : List Event)
    (h : process_new_payment_for_pubkey s p t = Except.ok (accId, s', ev)) :
    lookupLink s'.links LinkKind.WalletAddress p.sender = some accId ∧
    (findPayment s'.payments p.txid).isSome = true := by
  unfold process_new_payment_for_pubkey at h
  cases hl : lookupLink s.links LinkKind.WalletAddress p.sender with
  | some a =>
    simp only [fetch_or_create_account, Option.some_bind, Option.none_bind, hl,
      attachLink] at h
    cases hf : findPayment s.payments p.txid with
    | some r =>
      simp only [idempotent_insert, hf, Except.ok.injEq, Prod.mk.injEq] at h
      obtain ⟨h1, h2, h3⟩ := h
      subst h1
      subst h2
      exact ⟨hl, by rw [hf]; rfl⟩
    | none =>
      simp only [idempotent_insert, hf, Except.ok.injEq, Prod.mk.injEq] at h
      obtain ⟨h1, h2, h3⟩ := h
      subst h1
      subst h2
      refine ⟨hl, ?_⟩
      simp [findPayment, List.find?_cons]
  | none =>
    simp only [fetch_or_create_account, Option.some_bind, Option.none_bind, hl,
      attachLink] at h
    cases hf : findPayment s.payments p.txid with
    | some r =>
      simp only [idempotent_insert, hf, Except.ok.injEq, Prod.mk.injEq] at h
      obtain ⟨h1, h2, h3⟩ := h
      subst h1
      subst h2
      refine ⟨?_, by rw [hf]; rfl⟩
      simp [lookupLink, List.find?_cons]
    | none =>
      simp only [idempotent_insert, hf, Except.ok.injEq, Prod.mk.injEq] at h
      obtain ⟨h1, h2, h3⟩ := h
      subst h1
      subst h2
      refine ⟨?_, ?_⟩
      · simp [lookupLink, List.find?_cons]
      · simp [findPayment, List.find?_cons]

/-- Processing a payment whose txid is already stored, for a sender whose
link is already resolved, is a no-op success. -/
lemma process_payment_noop (s : Store) (p : NewPayment) (t : Nat) (accId : Int)
    (hl : lookupLink s.links LinkKind.WalletAddress p.sender = some accId)
    (hp : (findPayment s.payments p.txid).isSome = true) :
    process_new_payment_for_pubkey s p t = Except.ok (accId, s, []) := by
  obtain ⟨row, hr⟩ := Option.isSome_iff_exists.mp hp
  unfold process_new_payment_for_pubkey
  simp [fetch_or_create_account, hl, attachLink, idempotent_insert, hr]

/-! ## Claim theorems -/

/-- C1: for every account, the matcher (fetch_payable_orders followed by
try_pay_orders) selects claimed orders greedily in ascending
(created_at, order_id) order, stops at the first order whose amount exceeds
the remaining spendable balance, and its post-state satisfies spendable' ≥ 0
and spendable' = spendable minus the sum of the amounts of the orders it
returns as paid. -/
theorem matcher_greedy_payout (spendable : Int) (orders : List Order)
    (hs : 0 ≤ spendable) :
    List.Sorted orderKeyLe (fetch_payable_orders orders) ∧
    (∀ o ∈ fetch_payable_orders orders, o.status = OrderStatus.Claimed) ∧
    (matcher spendable orders).1 =
      (selectPayable spendable (fetch_payable_orders orders)).map markPaid ∧
    (∃ rest, fetch_payable_orders orders =
        selectPayable spendable (fetch_payable_orders orders) ++ rest ∧
      ∀ o, rest.head? = some o →
        spendable - amountSum (selectPayable spendable (fetch_payable_orders orders)) <
          o.amount) ∧
    (matcher spendable orders).2 =
      spendable - amountSum (selectPayable spendable (fetch_payable_orders orders)) ∧
    0 ≤ (matcher spendable orders).2 := by
  refine ⟨List.sorted_insertionSort orderKeyLe _, ?_, rfl, selectPayable_initial _ _, rfl, ?_⟩
  · intro o ho
    have hmem := (List.mem_insertionSort orderKeyLe).mp ho
    exact of_decide_eq_true (List.mem_filter.mp hmem).2
  · show 0 ≤ spendable - amountSum (selectPayable spendable (fetch_payable_orders orders))
    have := amountSum_selectPayable_le (fetch_payable_orders orders) spendable hs
    omega

/-- Witness for C1 at spendable 5 over the sample orders: the matcher pays
the first claimed order (amount 3) and stops at the second (amount 4). -/
theorem matcher_greedy_payout_witness :
    List.Sorted orderKeyLe (fetch_payable_orders c1SampleOrders) ∧
    (∀ o ∈ fetch_payable_orders c1SampleOrders, o.status = OrderStatus.Claimed) ∧
    (matcher 5 c1SampleOrders).1 =
      (selectPayable 5 (fetch_payable_orders c1SampleOrders)).map markPaid ∧
    (∃ rest, fetch_payable_orders c1SampleOrders =
        selectPayable 5 (fetch_payable_orders c1SampleOrders) ++ rest ∧
      ∀ o, rest.head? = some o →
        5 - amountSum (selectPayable 5 (fetch_payable_orders c1SampleOrders)) < o.amount) ∧
    (matcher 5 c1SampleOrders).2 =
      5 - amountSum (selectPayable 5 (fetch_payable_orders c1SampleOrders)) ∧
    0 ≤ (matcher 5 c1SampleOrders).2 :=
  matcher_greedy_payout 5 c1SampleOrders (by decide)

/-- C5 counterexample: from a reachable account state holding a paid order,
the administrative reset transition of spec section 4.3 decreases the
cumulative debits aggregate, so the aggregates do not never-decrease under
every operation. -/
theorem account_debits_not_monotone :
    ReachableAccount resetSampleState ∧
    Step resetSampleState resetSampleAfter ∧
    resetSampleAfter.debits < resetSampleState.debits :=
  ⟨resetSampleState_reachable,
   Step.resetOrder 5 3 0 [] [] resetSamplePaid rfl,
   by decide⟩

/-- C5 (amended): in every reachable account state, credits cover debits and
pending is non-negative; the cumulative credits aggregate never decreases
under any operation, and the cumulative debits aggregate never decreases
under any operation other than the administrative reset of a paid order,
which decreases debits by exactly that order's amount. -/
theorem account_invariants_hold (s : AccountState) (hs : ReachableAccount s) :
    (s.debits ≤ s.credits ∧ 0 ≤ s.pending) ∧
    (∀ s', Step s s' → s.credits ≤ s'.credits) ∧
    (∀ s', Step s s' → s.debits ≤ s'.debits ∨ isResetStep s s') := by
  have hinv := reachable_account_inv hs
  refine ⟨⟨hinv.1, ?_⟩, fun s' h => step_credits_monotone h,
    fun s' h => step_debits_cases hinv h⟩
  rw [hinv.2.1]
  exact pendingTotal_nonneg _ hinv.2.2

/-- Witness for C5 at the reachable sample state holding the paid order, the
very state on which the reset transition fires. -/
theorem account_invariants_hold_witness :
    ((resetSampleState.debits ≤ resetSampleState.credits ∧ 0 ≤ resetSampleState.pending) ∧
      (∀ s', Step resetSampleState s' → resetSampleState.credits ≤ s'.credits) ∧
      (∀ s', Step resetSampleState s' →
        resetSampleState.debits ≤ s'.debits ∨ isResetStep resetSampleState s')) :=
  account_invariants_hold resetSampleState resetSampleState_reachable

/-- C6: a credit note issued for a customer produces a payment row whose txid
follows the credit_note_ template over customer id, amount and issuing
timestamp, whose payment type is Manual, whose status is Confirmed, and whose
sender address depends only on the customer id. -/
theorem credit_note_fields (note : CreditNote) (ts accId : Int) (createdAt : Nat) :
    (credit_note note ts accId createdAt).txid =
      specCreditNoteTxid note.customer_id note.amount ts ∧
    (credit_note note ts accId createdAt).payment_type = PaymentType.Manual ∧
    (credit_note note ts accId createdAt).status = TransferStatus.Confirmed ∧
    ∀ (note2 : CreditNote) (ts2 accId2 : Int) (createdAt2 : Nat),
      note2.customer_id = note.customer_id →
      (credit_note note2 ts2 accId2 createdAt2).sender =
        (credit_note note ts accId createdAt).sender := by
  refine ⟨rfl, rfl, rfl, ?_⟩
  intro note2 ts2 accId2 createdAt2 h
  simp [credit_note, create_dummy_address_for_cust_id, h]

/-- Witness for C6 on a concrete credit note: txid template and
customer-determined sender. -/
theorem credit_note_fields_witness :
    (credit_note ⟨"c1", 50, none⟩ 3 7 0).txid = specCreditNoteTxid "c1" 50 3 ∧
    (credit_note ⟨"c1", 50, none⟩ 3 7 0).sender =
      (credit_note ⟨"c1", 99, some "promo"⟩ 4 8 9).sender :=
  ⟨(credit_note_fields ⟨"c1", 50, none⟩ 3 7 0).1,
   (credit_note_fields ⟨"c1", 99, some "promo"⟩ 4 8 9).2.2.2 ⟨"c1", 50, none⟩ 3 7 0 rfl⟩

/-- C7: the pending-credit view returns exactly the payments with status
Received from the given sender, in ascending created_at order, while the
spendable balance counts only Confirmed payments, so a Received payment
contributes nothing to it. -/
theorem pending_payments_view (address : String) (payments : List PaymentRow) :
    (∀ p, p ∈ pending_payments address payments ↔
      p ∈ payments ∧ p.status = TransferStatus.Received ∧ p.sender = address) ∧
    List.Sorted createdAtLe (pending_payments address payments) ∧
    (∀ p, p.status = TransferStatus.Received →
      confirmed_credit address (p :: payments) = confirmed_credit address payments) := by
  refine ⟨?_, List.sorted_insertionSort createdAtLe _, ?_⟩
  · intro p
    simp [pending_payments, List.mem_filter, and_assoc]
  · intro p hp
    unfold confirmed_credit
    rw [List.filter_cons]
    simp [hp]

/-- Witness for C7: membership of the Received payment in the view and its
null contribution to the confirmed credit. -/
theorem pending_payments_view_witness :
    (c7Received ∈ pending_payments "W" [c7Received, c7Confirmed] ↔
      c7Received ∈ [c7Received, c7Confirmed] ∧
      c7Received.status = TransferStatus.Received ∧ c7Received.sender = "W") ∧
    confirmed_credit "W" (c7Received :: [c7Confirmed]) = confirmed_credit "W" [c7Confirmed] :=
  ⟨(pending_payments_view "W" [c7Received, c7Confirmed]).1 c7Received,
   (pending_payments_view "W" [c7Confirmed]).2.2 c7Received rfl⟩

/-- C8: over HTTP, an InvalidSignature engine error surfaces with status 401,
an OrderNotFound error with status 404, and any engine error classified as a
BackendError with status 500. -/
theorem payment_gateway_error_status_codes :
    status_code (serverErrorOfPaymentGatewayError PaymentGatewayError.InvalidSignature) = 401 ∧
    (∀ oid, status_code
      (serverErrorOfPaymentGatewayError (PaymentGatewayError.OrderNotFound oid)) = 404) ∧
    (∀ e m, serverErrorOfPaymentGatewayError e = ServerError.BackendError m →
      status_code (serverErrorOfPaymentGatewayError e) = 500) := by
  refine ⟨rfl, fun oid => rfl, ?_⟩
  intro e m h
  rw [h]
  rfl

/-- Witness for C8: a database error is classified as BackendError and
surfaces with status 500. -/
theorem payment_gateway_error_status_codes_witness :
    status_code (serverErrorOfPaymentGatewayError (PaymentGatewayError.DatabaseError "boom"))
      = 500 :=
  payment_gateway_error_status_codes.2.2 (PaymentGatewayError.DatabaseError "boom")
    (pgeToString (PaymentGatewayError.DatabaseError "boom")) rfl

/-- C9: with no whitelist configured every request is admitted; with a
whitelist configured a request with no determinable peer IP is denied, and
one with a determined peer IP is admitted exactly when that IP is a member
of the whitelist. -/
theorem shopify_whitelist_admission (uxff ufwd : Bool) (req : ServiceRequest) :
    is_whitelisted uxff ufwd none req = true ∧
    (∀ wl, get_remote_ip req uxff ufwd = none →
      is_whitelisted uxff ufwd (some wl) req = false) ∧
    (∀ ip wl, get_remote_ip req uxff ufwd = some ip →
      (is_whitelisted uxff ufwd (some wl) req = true ↔ ip ∈ wl)) := by
  refine ⟨?_, ?_, ?_⟩
  · cases h : get_remote_ip req uxff ufwd <;> simp [is_whitelisted, h]
  · intro wl h
    simp [is_whitelisted, h]
  · intro ip wl h
    simp [is_whitelisted, h]

/-- Witness for C9: a whitelisted peer is admitted and a request with no
determinable peer IP is denied when a whitelist is configured. -/
theorem shopify_whitelist_admission_witness :
    is_whitelisted true false (some ["10.0.0.1", "10.0.0.2"]) ⟨some "10.0.0.2"⟩ = true ∧
    is_whitelisted true false (some ["10.0.0.1"]) ⟨none⟩ = false :=
  ⟨((shopify_whitelist_admission true false ⟨some "10.0.0.2"⟩).2.2 "10.0.0.2"
      ["10.0.0.1", "10.0.0.2"] rfl).mpr (by decide),
   (shopify_whitelist_admission true false ⟨none⟩).2.1 ["10.0.0.1"] rfl⟩

/-- C10: a profile's secret-key lookup returns the inline key when set;
otherwise it consults the configured environment variable and returns the
parse of its value; and it returns none — never an error — when neither
source is set, the variable is unset, or the hex value fails to parse. -/
theorem profile_secret_key_lookup (env : String → Option String)
    (from_hex : String → Option String) (p : Profile) (k v hex : String) :
    (p.secret_key = some k → profile_secret_key env from_hex p = some k) ∧
    (p.secret_key = none → p.secret_key_envar = some v → env v = some hex →
      profile_secret_key env from_hex p = from_hex hex) ∧
    (p.secret_key = none → p.secret_key_envar = none →
      profile_secret_key env from_hex p = none) ∧
    (p.secret_key = none → p.secret_key_envar = some v → env v = none →
      profile_secret_key env from_hex p = none) := by
  refine ⟨?_, ?_, ?_, ?_⟩ <;> intros <;> simp [profile_secret_key, *]

/-- Witness for C10: the environment path parses the variable's value, and
the inline key takes precedence when present. -/
theorem profile_secret_key_lookup_witness :
    profile_secret_key (fun _ => some "aa") (fun s => some ("key-" ++ s))
      ⟨"p", "addr", none, some "VAR", [Role.User], "http"⟩ = some "key-aa" ∧
    profile_secret_key (fun _ => none) (fun s => some s)
      ⟨"p", "addr", some "inline", some "VAR", [], "http"⟩ = some "inline" :=
  ⟨(profile_secret_key_lookup (fun _ => some "aa") (fun s => some ("key-" ++ s))
      ⟨"p", "addr", none, some "VAR", [Role.User], "http"⟩ "x" "VAR" "aa").2.1 rfl rfl rfl,
   (profile_secret_key_lookup (fun _ => none) (fun s => some s)
      ⟨"p", "addr", some "inline", some "VAR", [], "http"⟩ "inline" "v" "h").1 rfl⟩

/-- C2: update_payment_status fails with the not-found error when no payment
has the txid; fails with InvalidTransition when the payment's current status
is terminal; returns none and changes nothing when the new status equals the
current one; and otherwise updates the status and returns the account id of
the payment's account. -/
theorem update_payment_status_cases (s : Store) (txid : String) (newStatus : TransferStatus) :
    (findPayment s.payments txid = none →
      update_payment_status s txid newStatus =
        Except.error (PaymentGatewayError.PaymentStatusUpdateError
          ("Payment for " ++ txid ++ " does not exist"))) ∧
    (∀ p, findPayment s.payments txid = some p → p.status.isTerminal = true →
      update_payment_status s txid newStatus =
        Except.error (PaymentGatewayError.InvalidTransition
          ("Payment " ++ txid ++ " is already in a terminal state"))) ∧
    (∀ p, findPayment s.payments txid = some p → p.status.isTerminal = false →
      newStatus = p.status →
      update_payment_status s txid newStatus = Except.ok (none, s)) ∧
    (∀ p, findPayment s.payments txid = some p → p.status.isTerminal = false →
      newStatus ≠ p.status →
      update_payment_status s txid newStatus =
        Except.ok (some p.account_id,
          { s with payments := setPaymentStatus s.payments txid newStatus }) ∧
      findPayment (setPaymentStatus s.payments txid newStatus) txid =
        some { p with status := newStatus }) := by
  refine ⟨?_, ?_, ?_, ?_⟩
  · intro h
    unfold update_payment_status
    rw [h]
  · intro p hp hterm
    simp only [update_payment_status, hp]
    rw [if_pos hterm]
  · intro p hp hterm heq
    simp only [update_payment_status, hp]
    rw [if_neg (by simp [hterm]), if_pos heq]
  · intro p hp hterm hne
    refine ⟨?_, findPayment_setPaymentStatus txid newStatus s.payments p hp⟩
    simp only [update_payment_status, hp]
    rw [if_neg (by simp [hterm]), if_neg hne]

/-- Witness for C2: confirming the Received payment updates its row and
returns its account id. -/
theorem update_payment_status_cases_witness :
    update_payment_status c2Store "t1" TransferStatus.Confirmed =
      Except.ok (some 7, { c2Store with payments := setPaymentStatus c2Store.payments "t1" TransferStatus.Confirmed }) ∧
    findPayment (setPaymentStatus c2Store.payments "t1" TransferStatus.Confirmed) "t1" =
      some { c2Payment with status := TransferStatus.Confirmed } :=
  (update_payment_status_cases c2Store "t1" TransferStatus.Confirmed).2.2.2 c2Payment
    (by decide) (by decide) (by decide)

/-- C4: given both a customer id and a wallet address, fetch_or_create_account
fails with IdentityConflict and mutates nothing when the two identities
resolve to different existing accounts; returns the existing account's id
when some link matches; and otherwise creates one new account and attaches
both identity links to it. -/
theorem fetch_or_create_account_cases (s : Store) (c a : String) :
    (∀ x y, lookupLink s.links LinkKind.CustomerId c = some x →
      lookupLink s.links LinkKind.WalletAddress a = some y → x ≠ y →
      fetch_or_create_account s (some c) (some a) =
        (Except.error PaymentGatewayError.IdentityConflict, s)) ∧
    (∀ x y, lookupLink s.links LinkKind.CustomerId c = some x →
      lookupLink s.links LinkKind.WalletAddress a = some y → x = y →
      (fetch_or_create_account s (some c) (some a)).1 = Except.ok x) ∧
    (∀ x, lookupLink s.links LinkKind.CustomerId c = some x →
      lookupLink s.links LinkKind.WalletAddress a = none →
      (fetch_or_create_account s (some c) (some a)).1 = Except.ok x) ∧
    (∀ y, lookupLink s.links LinkKind.CustomerId c = none →
      lookupLink s.links LinkKind.WalletAddress a = some y →
      (fetch_or_create_account s (some c) (some a)).1 = Except.ok y) ∧
    (lookupLink s.links LinkKind.CustomerId c = none →
      lookupLink s.links LinkKind.WalletAddress a = none →
      fetch_or_create_account s (some c) (some a) =
        (Except.ok s.nextAccountId,
          { nextAccountId := s.nextAccountId + 1,
            links := ⟨LinkKind.WalletAddress, a, s.nextAccountId⟩ ::
              ⟨LinkKind.CustomerId, c, s.nextAccountId⟩ :: s.links,
            accounts := ⟨s.nextAccountId, 0, 0, 0⟩ :: s.accounts,
            orders := s.orders, payments := s.payments })) := by
  refine ⟨?_, ?_, ?_, ?_, ?_⟩ <;>
    intros <;>
    simp_all [fetch_or_create_account, attachLink]

/-- Witness for C4: the conflicting identities fail with IdentityConflict and
leave the store untouched. -/
theorem fetch_or_create_account_cases_witness :
    fetch_or_create_account c4Store (some "c1") (some "W") =
      (Except.error PaymentGatewayError.IdentityConflict, c4Store) :=
  (fetch_or_create_account_cases c4Store "c1" "W").1 1 2 (by decide) (by decide) (by decide)

/-- C3: processing the same order or the same payment twice is equivalent to
processing it once — the second call with a duplicate order_id (respectively
a duplicate txid) returns the same account id, leaves the store unchanged,
emits no event, and reports idempotent success rather than an error. -/
theorem process_twice_idempotent (s : Store) (o : NewOrder) (p : NewPayment) (t1 t2 : Nat) :
    (∀ accId s' ev, process_new_order_for_customer s o t1 = Except.ok (accId, s', ev) →
      process_new_order_for_customer s' o t2 = Except.ok (accId, s', [])) ∧
    (∀ accId s' ev, process_new_payment_for_pubkey s p t1 = Except.ok (accId, s', ev) →
      process_new_payment_for_pubkey s' p t2 = Except.ok (accId, s', [])) := by
  constructor
  · intro accId s' ev h
    obtain ⟨h1, h2⟩ := process_order_establishes s o t1 accId s' ev h
    exact process_order_noop s' o t2 accId h1 h2
  · intro accId s' ev h
    obtain ⟨h1, h2⟩ := process_payment_establishes s p t1 accId s' ev h
    exact process_payment_noop s' p t2 accId h1 h2

/-- Witness for C3: replaying the sample order and the sample payment against
the stores their first calls produced changes nothing, emits nothing, and
succeeds. -/
theorem process_twice_idempotent_witness :
    process_new_order_for_customer c3FirstStore c3Order 1 = Except.ok (0, c3FirstStore, []) ∧
    process_new_payment_for_pubkey c3PayStore c3Payment 1 = Except.ok (0, c3PayStore, []) :=
  ⟨(process_twice_idempotent c3EmptyStore c3Order c3Payment 0 1).1 0 c3FirstStore
      [Event.OrderReceived "A"] rfl,
   (process_twice_idempotent c3EmptyStore c3Order c3Payment 0 1).2 0 c3PayStore
      [Event.PaymentReceived "t1"] rfl⟩

end TariPayment
